import Mathlib

/-
  Verification of the AI cable design validator (frontend in src/frontend,
  backend orchestration core modelled from the specification where its
  Python sources are not part of the repository snapshot).

  Numbers that are JavaScript numbers in the source are embedded as ℚ;
  optional (possibly-undefined) values as Option; TypeScript union types
  as inductives.
-/

namespace CableValidator

/-- The status vocabulary, from `ValidationStatus = 'PASS' | 'WARN' | 'FAIL'`
in frontend/src/types/validation.ts. -/
inductive ValidationStatus where
  | PASS
  | WARN
  | FAIL
deriving DecidableEq

/-- The TypeScript value of a `ValidationStatus` (the union member string). -/
def statusValue : ValidationStatus → String
  | .PASS => "PASS"
  | .WARN => "WARN"
  | .FAIL => "FAIL"

/-- `CableDesignInput` from types/validation.ts: all seven fields optional. -/
structure CableDesignInput where
  standard : Option String := none
  voltage : Option String := none
  conductor_material : Option String := none
  conductor_class : Option String := none
  csa : Option ℚ := none
  insulation_material : Option String := none
  insulation_thickness : Option ℚ := none
deriving DecidableEq

/-- `ValidationRequest` from types/validation.ts. -/
structure ValidationRequest where
  design : Option CableDesignInput := none
  free_text : Option String := none
  design_id : Option Nat := none
deriving DecidableEq

/-- `FieldValidation` from types/validation.ts. -/
structure FieldValidation where
  field : String
  provided : Option String := none
  expected : Option String := none
  status : ValidationStatus
  comment : String
deriving DecidableEq

/-- `ConfidenceScore` from types/validation.ts. -/
structure ConfidenceScore where
  overall : ℚ
  reasoning : Option String := none
deriving DecidableEq

/-- `ExtractedFields` from types/validation.ts has exactly the shape of
`CableDesignInput`. -/
abbrev ExtractedFields := CableDesignInput

/-- `ValidationResult` from types/validation.ts. -/
structure ValidationResult where
  fields : ExtractedFields
  validation : List FieldValidation
  confidence : ConfidenceScore
  reasoning : String
deriving DecidableEq

/-- `ValidationResponse` from types/validation.ts. -/
structure ValidationResponse where
  success : Bool
  message : String
  data : Option ValidationResult := none
  input_type : String
deriving DecidableEq

/-- MUI chip palette names used by StatusChip and ReasoningDrawer. -/
inductive ChipColor where
  | success
  | warning
  | error
deriving DecidableEq

/-- One entry of `statusConfig` in StatusChip.tsx (the icon is omitted:
it carries no data the claims mention). -/
structure StatusChipConfig where
  color : ChipColor
  label : String
deriving DecidableEq

/-- `statusConfig` from StatusChip.tsx. -/
def statusConfig : ValidationStatus → StatusChipConfig
  | .PASS => { color := .success, label := "PASS" }
  | .WARN => { color := .warning, label := "WARN" }
  | .FAIL => { color := .error, label := "FAIL" }

/-- The label StatusChip renders for a status (`config.label` in
StatusChip.tsx). -/
def statusChipLabel (status : ValidationStatus) : String :=
  (statusConfig status).label

/-- JavaScript `Math.round`: round half toward positive infinity. -/
def jsRound (x : ℚ) : ℤ := ⌊x + 1 / 2⌋

/-- The percentage integer both UI displays derive from a 0–1 confidence:
`Math.round(c * 100)` in design-validator/page.tsx line 189 and
ReasoningDrawer line 43. -/
def displayedConfidencePercent (c : ℚ) : ℤ := jsRound (c * 100)

/-- `getConfidenceColor` from ReasoningDrawer. -/
def getConfidenceColor (score : ℚ) : ChipColor :=
  if score ≥ 85 / 100 then .success
  else if score ≥ 65 / 100 then .warning
  else .error

/-- `getConfidenceLabel` from ReasoningDrawer. -/
def getConfidenceLabel (score : ℚ) : String :=
  if score ≥ 85 / 100 then "High Confidence"
  else if score ≥ 65 / 100 then "Medium Confidence"
  else "Low Confidence"

/-- The data the ReasoningDrawer body computes and renders when it does not
return null. -/
structure ReasoningDrawerView where
  confidencePercent : ℤ
  confidenceColor : ChipColor
  confidenceLabel : String
  reasoning : String
deriving DecidableEq

/-- `ReasoningDrawer` from ReasoningDrawer component: `if (!result) return
null;` then the body dereferences `result.confidence.overall` and
`result.reasoning`. The rendered view does not depend on the open flag (the
null check precedes any use of it). -/
def ReasoningDrawer (openFlag : Bool) (result : Option ValidationResult) :
    Option ReasoningDrawerView :=
  match result with
  | none => none
  | some r =>
      some { confidencePercent := displayedConfidencePercent r.confidence.overall
             confidenceColor := getConfidenceColor r.confidence.overall
             confidenceLabel := getConfidenceLabel r.confidence.overall
             reasoning := r.reasoning }

/-- What ResultsTable renders: the empty-state placeholder when
`validations.length === 0`, otherwise the data grid over the rows. -/
inductive ResultsView where
  | emptyPlaceholder
  | table (rows : List FieldValidation)
deriving DecidableEq

/-- The `validations.length === 0` branch of ResultsTable.tsx. -/
def resultsTableView (validations : List FieldValidation) : ResultsView :=
  if validations.isEmpty then .emptyPlaceholder else .table validations

/-- Whitespace as removed by JavaScript `String.prototype.trim`: space, tab,
line feed, carriage return, vertical tab, form feed (the ASCII portion of
the JS WhiteSpace/LineTerminator productions). -/
def isJsWhitespace (c : Char) : Bool :=
  c == ' ' || c == '\t' || c == '\n' || c == '\r' ||
  c == Char.ofNat 11 || c == Char.ofNat 12

/-- JavaScript `String.prototype.trim`: strip leading and trailing
whitespace. -/
def jsTrim (s : String) : String :=
  ⟨((s.toList.dropWhile isJsWhitespace).reverse.dropWhile isJsWhitespace).reverse⟩

/-- `defaultDesign` from InputPanel.tsx: the structured tab starts fully
populated. -/
def defaultDesign : CableDesignInput :=
  { standard := some "IEC 60502-1"
    voltage := some "0.6/1 kV"
    conductor_material := some "Cu"
    conductor_class := some "Class 2"
    csa := some 10
    insulation_material := some "PVC"
    insulation_thickness := some 1 }

/-- The InputPanel component state: `tabValue`, `design`, `freeText`,
`selectedDesignId` (the TS sentinel `''` for "nothing selected" is `none`). -/
structure InputPanelState where
  tabValue : Nat
  design : CableDesignInput
  freeText : String
  selectedDesignId : Option Nat
deriving DecidableEq

/-- `handleSubmit` from InputPanel.tsx composed with the request literal
built in `handleValidate` (design-validator/page.tsx lines 61–65): the
arguments `(design, undefined, undefined)` / `(undefined, freeText,
undefined)` / `(undefined, undefined, selectedDesignId)` become the
`ValidationRequest` fields verbatim. `none` means no call is made. -/
def handleSubmit (st : InputPanelState) : Option ValidationRequest :=
  if st.tabValue = 0 then
    some { design := some st.design, free_text := none, design_id := none }
  else if st.tabValue = 1 then
    some { design := none, free_text := some st.freeText, design_id := none }
  else if st.tabValue = 2 then
    match st.selectedDesignId with
    | some i => some { design := none, free_text := none, design_id := some i }
    | none => none
  else none

/-- `isValid` from InputPanel.tsx; the submit button is disabled whenever
this is false. -/
def isValid (st : InputPanelState) : Bool :=
  if st.tabValue = 0 then true
  else if st.tabValue = 1 then decide (0 < (jsTrim st.freeText).length)
  else if st.tabValue = 2 then st.selectedDesignId.isSome
  else false

/-- The component state of DesignValidatorPage that `handleValidate`
touches. -/
structure PageState where
  isLoading : Bool
  validationResult : Option ValidationResult
  error : Option String
  drawerOpen : Bool
  snackbarOpen : Bool
deriving DecidableEq

/-- The JavaScript error caught in `handleValidate`'s catch block:
`err.response?.data?.detail` collapses to one optional string, and
`err.message` is optional. -/
structure JsError where
  responseDetail : Option String := none
  message : Option String := none
deriving DecidableEq

/-- JavaScript `a || b` on strings: the empty string is falsy. -/
def jsOrString (a b : String) : String :=
  if a = "" then b else a

/-- JavaScript `a || b` where `a` may be undefined: undefined and the empty
string are falsy. -/
def jsOrOpt (a : Option String) (b : String) : String :=
  match a with
  | none => b
  | some s => jsOrString s b

/-- `handleValidate` from design-validator/page.tsx lines 52–84, as a state
transformer over the outcome of the awaited `validateDesign` call: first
`setIsLoading(true); setError(null)`, then either the success branch
(`response.success && response.data`), the else branch
(`setError(response.message || 'Validation failed')`), or the catch branch;
`finally` resets `isLoading`. -/
def handleValidate (st : PageState)
    (outcome : Except JsError ValidationResponse) : PageState :=
  let st1 : PageState := { st with isLoading := true, error := none }
  let st2 : PageState :=
    match outcome with
    | .ok resp =>
        if resp.success && resp.data.isSome then
          { st1 with validationResult := resp.data
                     drawerOpen := true
                     snackbarOpen := true }
        else
          { st1 with error := some (jsOrString resp.message "Validation failed") }
    | .error e =>
        { st1 with error := some (jsOrOpt e.responseDetail
            (jsOrOpt e.message
              "Failed to validate design. Please check if the backend is running.")) }
  { st2 with isLoading := false }

/-- Whether an awaited `validateDesign` outcome takes one of
`handleValidate`'s failure paths: the promise rejected, or the response has
`success` false or no `data`. -/
def isFailureOutcome : Except JsError ValidationResponse → Bool
  | .error _ => true
  | .ok resp => !(resp.success && resp.data.isSome)

/-- The axios instance configuration in services/api.ts: `axios.create` is
called with `baseURL` and the JSON content-type header only; no `timeout`
option is supplied, so axios's default of no timeout applies. -/
structure AxiosConfig where
  baseURL : String
  contentTypeHeader : String
  timeout : Option Nat
deriving DecidableEq

/-- `API_URL` fallback from services/api.ts. -/
def API_URL : String := "http://localhost:8000"

/-- `apiClient` from services/api.ts lines 13–18. -/
def apiClient : AxiosConfig :=
  { baseURL := API_URL
    contentTypeHeader := "application/json"
    timeout := none }

/-! Backend orchestration core. The Python backend
(`backend/app/services/validation.py`, `ai_gateway.py`) is not part of the
repository snapshot under `src/`; the following definitions are modelled
from the specification. -/

/-- Modelled from the spec: provenance tag recording which input mode
produced a `CanonicalDesign` (§3). -/
inductive Provenance where
  | structured
  | extractedFromText
  | lookedUpById
deriving DecidableEq

/-- Modelled from the spec: `CanonicalDesign` (§3) — seven optional fields
plus the provenance tag; in free-text mode the raw text is carried through
opaquely (§4.1). -/
structure CanonicalDesign where
  standard : Option String := none
  voltage : Option String := none
  conductor_material : Option String := none
  conductor_class : Option String := none
  csa : Option ℚ := none
  insulation_material : Option String := none
  insulation_thickness : Option ℚ := none
  provenance : Provenance
  raw_text : Option String := none
deriving DecidableEq

/-- Modelled from the spec: `InputError` kinds (§7). -/
inductive InputError where
  | Empty
  | NotFound
deriving DecidableEq

/-- Modelled from the spec: `AggregationError` kinds (§7). -/
inductive AggregationError where
  | EmptyVerdictSet
deriving DecidableEq

/-- Modelled from the spec: `FieldVerdict` (§3). -/
structure FieldVerdict where
  field_name : String
  provided_value : Option String := none
  expected_value_or_range : Option String := none
  status : ValidationStatus
  comment : String
deriving DecidableEq

/-- Modelled from the spec: `ParsedVerdict` (§3). -/
structure ParsedVerdict where
  extracted_fields : CanonicalDesign
  field_verdicts : List FieldVerdict
  raw_reasoning_text : String
  declared_confidence : Option ℚ := none
deriving DecidableEq

/-- Modelled from the spec: the worst (most severe) status among field
verdicts — FAIL dominates WARN dominates PASS (§4.4). -/
def worstStatus (vs : List FieldVerdict) : ValidationStatus :=
  if vs.any (fun v => decide (v.status = .FAIL)) then .FAIL
  else if vs.any (fun v => decide (v.status = .WARN)) then .WARN
  else .PASS

/-- Modelled from the spec: the fixed per-status confidence bands used only
as a fallback when the engine declares no confidence (§4.4). -/
def impliedConfidence : ValidationStatus → ℚ
  | .PASS => 95 / 100
  | .WARN => 65 / 100
  | .FAIL => 30 / 100

/-- The overall status / overall confidence pair the aggregator produces. -/
structure AggregateResult where
  overall_status : ValidationStatus
  overall_confidence : ℚ
deriving DecidableEq

/-- Modelled from the spec: the backend `ConfidenceAggregator` (§4.4) —
fails with `AggregationError(EmptyVerdictSet)` on an empty verdict list;
otherwise uses the declared confidence when present, the mean of implied
per-status confidences when absent, and the worst status present. -/
def aggregate (pv : ParsedVerdict) : Except AggregationError AggregateResult :=
  if pv.field_verdicts.isEmpty then
    .error .EmptyVerdictSet
  else
    .ok { overall_status := worstStatus pv.field_verdicts
          overall_confidence :=
            match pv.declared_confidence with
            | some c => c
            | none =>
                (pv.field_verdicts.map (fun v => impliedConfidence v.status)).sum
                  / pv.field_verdicts.length }

/-- Modelled from the spec: the backend `ResponseParser`'s status
case-normalization (§4.3, §6) — a token is accepted iff it
case-insensitively matches one of the three canonical values, and is
normalized to that value. -/
def parseStatus (s : String) : Option ValidationStatus :=
  if s.toUpper = "PASS" then some .PASS
  else if s.toUpper = "WARN" then some .WARN
  else if s.toUpper = "FAIL" then some .FAIL
  else none

/-- Modelled from the spec: the free-text branch of the backend
`InputNormalizer` (§4.1) — empty or whitespace-only text fails with
`InputError(Empty)`; otherwise the raw text passes through opaquely with
provenance `extractedFromText`. -/
def normalizeFreeText (s : String) : Except InputError CanonicalDesign :=
  if jsTrim s = "" then .error .Empty
  else .ok { provenance := .extractedFromText, raw_text := some s }

/-! Concrete sample values used by the witness theorems. -/

/-- A verdict list with a single FAIL entry. -/
def failVerdict0 : FieldVerdict :=
  { field_name := "insulation_thickness"
    status := .FAIL
    comment := "below the IEC 60502-1 minimum" }

/-- A parsed verdict whose only field verdict is FAIL and whose engine
declared a confidence. -/
def parsedFail0 : ParsedVerdict :=
  { extracted_fields := { provenance := .structured }
    field_verdicts := [failVerdict0]
    raw_reasoning_text := "engine reasoning"
    declared_confidence := some (92 / 100) }

/-- A parsed verdict with an empty verdict list. -/
def emptyParsedVerdict : ParsedVerdict :=
  { extracted_fields := { provenance := .structured }
    field_verdicts := []
    raw_reasoning_text := "engine reasoning" }

/-- A page state with no stored result and closed drawer. -/
def pageState0 : PageState :=
  { isLoading := false
    validationResult := none
    error := none
    drawerOpen := false
    snackbarOpen := false }

/-- A backend response with `success: false`. -/
def failureResponse0 : Except JsError ValidationResponse :=
  .ok { success := false, message := "", input_type := "structured" }

/-- A backend response with `success: true` and data. -/
def successResponse0 : Except JsError ValidationResponse :=
  .ok { success := true
        message := "Validated"
        data := some { fields := {}
                       validation := []
                       confidence := { overall := 9 / 10 }
                       reasoning := "all good" }
        input_type := "structured" }

/-! Helper lemmas about the worst-status fold. -/

lemma worstStatus_eq_fail_iff (vs : List FieldVerdict) :
    worstStatus vs = .FAIL ↔ ∃ v ∈ vs, v.status = .FAIL := by
  unfold worstStatus
  split_ifs with h1 h2 <;> simp_all [List.any_eq_true]

lemma worstStatus_eq_warn_iff (vs : List FieldVerdict) :
    worstStatus vs = .WARN ↔
      ((¬ ∃ v ∈ vs, v.status = .FAIL) ∧ ∃ v ∈ vs, v.status = .WARN) := by
  unfold worstStatus
  split_ifs with h1 h2 <;> simp_all [List.any_eq_true]

lemma worstStatus_eq_pass_iff (vs : List FieldVerdict) :
    worstStatus vs = .PASS ↔ ∀ v ∈ vs, v.status = .PASS := by
  unfold worstStatus
  split_ifs with h1 h2
  · simp only [List.any_eq_true, decide_eq_true_eq] at h1
    obtain ⟨v, hv, hs⟩ := h1
    simp only [reduceCtorEq, false_iff, not_forall]
    exact ⟨v, hv, by simp [hs]⟩
  · simp only [List.any_eq_true, decide_eq_true_eq] at h2
    obtain ⟨v, hv, hs⟩ := h2
    simp only [reduceCtorEq, false_iff, not_forall]
    exact ⟨v, hv, by simp [hs]⟩
  · simp only [List.any_eq_true, decide_eq_true_eq] at h1 h2
    push_neg at h1 h2
    simp only [true_iff]
    intro v hv
    cases hsv : v.status with
    | PASS => rfl
    | WARN => exact absurd hsv (h2 v hv)
    | FAIL => exact absurd hsv (h1 v hv)

lemma aggregate_ok_status (pv : ParsedVerdict) (r : AggregateResult)
    (hr : aggregate pv = .ok r) :
    r.overall_status = worstStatus pv.field_verdicts := by
  unfold aggregate at hr
  split_ifs at hr with he
  injection hr with h2
  rw [← h2]

/-! Theorems settling the claims. -/

/-- C1: for every field-verdict list the aggregator accepts (it accepts
exactly the non-empty ones), `overall_status` is the worst status present:
it equals FAIL iff at least one verdict is FAIL, equals WARN iff no verdict
is FAIL and at least one is WARN, and equals PASS iff every verdict is
PASS. -/
theorem aggregate_overall_status_worst (pv : ParsedVerdict)
    (r : AggregateResult) (hr : aggregate pv = .ok r) :
    (r.overall_status = .FAIL ↔ ∃ v ∈ pv.field_verdicts, v.status = .FAIL) ∧
    (r.overall_status = .WARN ↔
      ((¬ ∃ v ∈ pv.field_verdicts, v.status = .FAIL) ∧
        ∃ v ∈ pv.field_verdicts, v.status = .WARN)) ∧
    (r.overall_status = .PASS ↔ ∀ v ∈ pv.field_verdicts, v.status = .PASS) := by
  rw [aggregate_ok_status pv r hr]
  exact ⟨worstStatus_eq_fail_iff _, worstStatus_eq_warn_iff _,
    worstStatus_eq_pass_iff _⟩

/-- Witness for C1 at a concrete input: a one-element verdict list whose
only verdict is FAIL. -/
theorem aggregate_overall_status_worst_witness :
    ((AggregateResult.mk .FAIL (92 / 100)).overall_status = .FAIL ↔
      ∃ v ∈ parsedFail0.field_verdicts, v.status = .FAIL) ∧
    ((AggregateResult.mk .FAIL (92 / 100)).overall_status = .WARN ↔
      ((¬ ∃ v ∈ parsedFail0.field_verdicts, v.status = .FAIL) ∧
        ∃ v ∈ parsedFail0.field_verdicts, v.status = .WARN)) ∧
    ((AggregateResult.mk .FAIL (92 / 100)).overall_status = .PASS ↔
      ∀ v ∈ parsedFail0.field_verdicts, v.status = .PASS) :=
  aggregate_overall_status_worst parsedFail0 ⟨.FAIL, 92 / 100⟩ rfl

/-- C2: aggregation over a `ParsedVerdict` with an empty verdict list fails
with `AggregationError.EmptyVerdictSet` (so no `ValidationOutcome` — in
particular none with status PASS — is produced), and the ResultsTable
renders the empty-state placeholder, never a passing table, for an empty
verdict list. -/
theorem aggregate_empty_verdicts_fails (pv : ParsedVerdict)
    (h : pv.field_verdicts = []) :
    aggregate pv = .error .EmptyVerdictSet ∧
    resultsTableView [] = .emptyPlaceholder := by
  refine ⟨?_, rfl⟩
  unfold aggregate
  rw [if_pos (by simp [h])]

/-- Witness for C2 at a concrete empty parsed verdict. -/
theorem aggregate_empty_verdicts_fails_witness :
    aggregate emptyParsedVerdict = .error .EmptyVerdictSet ∧
    resultsTableView [] = .emptyPlaceholder :=
  aggregate_empty_verdicts_fails emptyParsedVerdict rfl

/-- C8: the axios client in services/api.ts is created with no `timeout`
option (axios then applies its default of no timeout), so calls to the
backend are not bounded by a caller-supplied timeout, contrary to the
specification. -/
theorem apiClient_timeout_none : apiClient.timeout = none := rfl

/-- C10: for every value of the open flag, ReasoningDrawer renders nothing
when its result prop is null; the body that dereferences
`result.confidence.overall` and `result.reasoning` is reached only in the
non-null branch of the embedding. -/
theorem reasoningDrawer_null_on_null_result :
    ∀ openFlag : Bool, ReasoningDrawer openFlag none = none :=
  fun _ => rfl

/-- C3: every request `handleSubmit` actually submits defines exactly one
of the three alternatives — the structured tab only `design`, the free-text
tab only `free_text`, the database tab only `design_id`; in every case the
other two fields are undefined, so a request with none of the three defined
is never submitted. -/
theorem handleSubmit_exactly_one_alternative (st : InputPanelState)
    (req : ValidationRequest) (h : handleSubmit st = some req) :
    (st.tabValue = 0 ∧ req.design = some st.design ∧
      req.free_text = none ∧ req.design_id = none) ∨
    (st.tabValue = 1 ∧ req.design = none ∧
      req.free_text = some st.freeText ∧ req.design_id = none) ∨
    (st.tabValue = 2 ∧ req.design = none ∧
      req.free_text = none ∧ req.design_id.isSome = true) := by
  unfold handleSubmit at h
  split_ifs at h with h0 h1 h2
  · left
    obtain rfl : req = _ := (Option.some.inj h).symm
    exact ⟨h0, rfl, rfl, rfl⟩
  · right; left
    obtain rfl : req = _ := (Option.some.inj h).symm
    exact ⟨h1, rfl, rfl, rfl⟩
  · right; right
    cases hsel : st.selectedDesignId with
    | none => rw [hsel] at h; cases h
    | some i =>
        rw [hsel] at h
        obtain rfl : req = _ := (Option.some.inj h).symm
        exact ⟨h2, rfl, rfl, rfl⟩

/-- Witness for C3 at a concrete input: the free-text tab with text
"hello". -/
theorem handleSubmit_exactly_one_alternative_witness :
    ((InputPanelState.mk 1 defaultDesign "hello" none).tabValue = 0 ∧
      (ValidationRequest.mk none (some "hello") none).design =
        some (InputPanelState.mk 1 defaultDesign "hello" none).design ∧
      (ValidationRequest.mk none (some "hello") none).free_text = none ∧
      (ValidationRequest.mk none (some "hello") none).design_id = none) ∨
    ((InputPanelState.mk 1 defaultDesign "hello" none).tabValue = 1 ∧
      (ValidationRequest.mk none (some "hello") none).design = none ∧
      (ValidationRequest.mk none (some "hello") none).free_text =
        some (InputPanelState.mk 1 defaultDesign "hello" none).freeText ∧
      (ValidationRequest.mk none (some "hello") none).design_id = none) ∨
    ((InputPanelState.mk 1 defaultDesign "hello" none).tabValue = 2 ∧
      (ValidationRequest.mk none (some "hello") none).design = none ∧
      (ValidationRequest.mk none (some "hello") none).free_text = none ∧
      (ValidationRequest.mk none (some "hello") none).design_id.isSome = true) :=
  handleSubmit_exactly_one_alternative
    (InputPanelState.mk 1 defaultDesign "hello" none)
    (ValidationRequest.mk none (some "hello") none) rfl

/-- C4: a status token is accepted by the status case-normalization iff its
uppercased form is one of the three canonical values, in which case it is
normalized to exactly that status; and for each of the three statuses the
StatusChip label is identical to the status value. -/
theorem status_vocabulary_case_insensitive :
    (∀ s : String, ∀ st : ValidationStatus,
        parseStatus s = some st ↔ s.toUpper = statusValue st) ∧
    (∀ st : ValidationStatus, statusChipLabel st = statusValue st) := by
  constructor
  · intro s st
    unfold parseStatus
    split_ifs with h1 h2 h3 <;> cases st <;> simp_all [statusValue]
  · intro st
    cases st <;> rfl

/-- C5: for every overall confidence in [0, 1], the integer both UI
surfaces display — `Math.round(overall_confidence * 100)` — lies in
[0, 100]. -/
theorem displayedConfidencePercent_range (c : ℚ) (h0 : 0 ≤ c) (h1 : c ≤ 1) :
    0 ≤ displayedConfidencePercent c ∧ displayedConfidencePercent c ≤ 100 := by
  unfold displayedConfidencePercent jsRound
  constructor
  · exact Int.floor_nonneg.mpr (by linarith)
  · have hlt : c * 100 + 1 / 2 < ((101 : ℤ) : ℚ) := by push_cast; linarith
    have := Int.floor_lt.mpr hlt
    omega

/-- Witness for C5 at the concrete confidence 1. -/
theorem displayedConfidencePercent_range_witness :
    0 ≤ displayedConfidencePercent 1 ∧ displayedConfidencePercent 1 ≤ 100 :=
  displayedConfidencePercent_range 1 (by norm_num) (by norm_num)

/-- C6: on [0, 1] the two banding helpers agree: the pair (color success,
label "High Confidence") occurs iff the score is at least 0.85, (warning,
"Medium Confidence") iff it is in [0.65, 0.85), and (error,
"Low Confidence") iff it is below 0.65. -/
theorem confidence_banding (c : ℚ) (h0 : 0 ≤ c) (h1 : c ≤ 1) :
    ((getConfidenceColor c = .success ∧
        getConfidenceLabel c = "High Confidence") ↔ 85 / 100 ≤ c) ∧
    ((getConfidenceColor c = .warning ∧
        getConfidenceLabel c = "Medium Confidence") ↔
      (65 / 100 ≤ c ∧ c < 85 / 100)) ∧
    ((getConfidenceColor c = .error ∧
        getConfidenceLabel c = "Low Confidence") ↔ c < 65 / 100) := by
  unfold getConfidenceColor getConfidenceLabel
  split_ifs with ha hb <;>
    refine ⟨?_, ?_, ?_⟩ <;> simp_all <;> linarith

/-- Witness for C6 at the concrete confidence 0.7. -/
theorem confidence_banding_witness :
    ((getConfidenceColor (7 / 10) = .success ∧
        getConfidenceLabel (7 / 10) = "High Confidence") ↔ 85 / 100 ≤ (7 / 10 : ℚ)) ∧
    ((getConfidenceColor (7 / 10) = .warning ∧
        getConfidenceLabel (7 / 10) = "Medium Confidence") ↔
      (65 / 100 ≤ (7 / 10 : ℚ) ∧ (7 / 10 : ℚ) < 85 / 100)) ∧
    ((getConfidenceColor (7 / 10) = .error ∧
        getConfidenceLabel (7 / 10) = "Low Confidence") ↔ (7 / 10 : ℚ) < 65 / 100) :=
  confidence_banding (7 / 10) (by norm_num) (by norm_num)

/-- C7: when the trimmed free text is empty, free-text-mode validation is
refused: `isValid` is false on the free-text tab (so the submit button is
disabled and no request is sent), and the normalizer fails with
`InputError.Empty` instead of producing a `CanonicalDesign`. -/
theorem blank_free_text_refused (st : InputPanelState)
    (htab : st.tabValue = 1) (hblank : jsTrim st.freeText = "") :
    isValid st = false ∧
    normalizeFreeText st.freeText = .error .Empty := by
  constructor
  · simp [isValid, htab, hblank]
  · simp [normalizeFreeText, hblank]

/-- Witness for C7 at the concrete whitespace-only input "  ". -/
theorem blank_free_text_refused_witness :
    isValid (InputPanelState.mk 1 defaultDesign "  " none) = false ∧
    normalizeFreeText (InputPanelState.mk 1 defaultDesign "  " none).freeText =
      .error .Empty :=
  blank_free_text_refused (InputPanelState.mk 1 defaultDesign "  " none)
    rfl rfl

/-- C9: on every failure path of `handleValidate` (rejected call, or
response with `success` false or missing `data`) the stored
`validationResult` is unchanged, the error is set to some message, and the
drawer and snackbar flags are unchanged; `isLoading` ends false after every
outcome, success included. -/
theorem handleValidate_failure_state (st : PageState)
    (outcome outcome2 : Except JsError ValidationResponse)
    (h : isFailureOutcome outcome = true) :
    (handleValidate st outcome).validationResult = st.validationResult ∧
    (handleValidate st outcome).error.isSome = true ∧
    (handleValidate st outcome).drawerOpen = st.drawerOpen ∧
    (handleValidate st outcome).snackbarOpen = st.snackbarOpen ∧
    (handleValidate st outcome).isLoading = false ∧
    (handleValidate st outcome2).isLoading = false := by
  have hload : ∀ o, (handleValidate st o).isLoading = false := by
    intro o
    cases o with
    | error e => rfl
    | ok resp =>
        unfold handleValidate
        by_cases hc : (resp.success && resp.data.isSome) = true
        · simp only [hc, if_true]
        · simp only [Bool.not_eq_true] at hc
          simp only [hc, Bool.false_eq_true, if_false]
  cases outcome with
  | error e =>
      refine ⟨rfl, rfl, rfl, rfl, hload _, hload _⟩
  | ok resp =>
      unfold isFailureOutcome at h
      simp only [Bool.not_eq_true'] at h
      refine ⟨?_, ?_, ?_, ?_, hload _, hload _⟩ <;>
        simp [handleValidate, h]

/-- Witness for C9: a response with `success: false` leaves the stored
result and flags unchanged and sets an error, and a successful outcome also
ends with `isLoading` false. -/
theorem handleValidate_failure_state_witness :
    (handleValidate pageState0 failureResponse0).validationResult =
      pageState0.validationResult ∧
    (handleValidate pageState0 failureResponse0).error.isSome = true ∧
    (handleValidate pageState0 failureResponse0).drawerOpen =
      pageState0.drawerOpen ∧
    (handleValidate pageState0 failureResponse0).snackbarOpen =
      pageState0.snackbarOpen ∧
    (handleValidate pageState0 failureResponse0).isLoading = false ∧
    (handleValidate pageState0 successResponse0).isLoading = false :=
  handleValidate_failure_state pageState0 failureResponse0 successResponse0 rfl

end CableValidator
